import Mathlib

/-!
Verification of the RupeeRadar SMS-to-transaction parsing pipeline.

The development shallowly embeds the core of the repository:
the bank-pattern library, the transaction extractor with its generic
fallback (`src/utils/smsParser.ts`, here from the unnamed source part),
and the ingestion/deduplication service (`src/services/smsService.ts`).

JavaScript regular expressions are embedded as an explicit regex AST
(`Re`) together with a backtracking matcher (`matM`) that follows
JS `String.prototype.match` semantics for the constructs the source
uses: leftmost search, greedy and lazy quantifiers, alternation with
left preference, capture groups, the `$` anchor, and the `/i` flag.
Strings are `List Char`; JS numbers that can be `NaN` are `JsNum`.
-/

set_option maxRecDepth 16384

namespace RupeeRadar

/-- Character classes used by the JS regexes: `\s` (the whitespace
forms that occur in SMS text). -/
def isSpaceJS (c : Char) : Bool :=
  c == ' ' || c == '\t' || c == '\n' || c == '\r'

/-- JS `.`: any character except a line terminator. -/
def isDotChar (c : Char) : Bool :=
  !(c == '\n' || c == '\r' || c.toNat == 0x2028 || c.toNat == 0x2029)

/-- ASCII uppercase letter, for the `[A-Z]` class. -/
def isUpperAZ (c : Char) : Bool :=
  65 ≤ c.toNat && c.toNat ≤ 90

/-- Regex AST covering exactly the constructs appearing in the source's
patterns.  `star true` is greedy `*`, `star false` is lazy `*?`;
`tailAnchor` is `$`. -/
inductive Re : Type where
  | eps : Re
  | cls : (Char → Bool) → Re
  | cat : Re → Re → Re
  | alt : Re → Re → Re
  | star : Bool → Re → Re
  | group : Nat → Re → Re
  | tailAnchor : Re

/-- Greedy `?`. -/
def Re.opt (r : Re) : Re := .alt r .eps

/-- Greedy `+`. -/
def Re.plus (r : Re) : Re := .cat r (.star true r)

/-- Exact repetition `{n}`. -/
def Re.rep : Nat → Re → Re
  | 0, _ => .eps
  | n + 1, r => .cat r (Re.rep n r)

/-- Greedy `{0,n}`. -/
def Re.upTo : Nat → Re → Re
  | 0, _ => .eps
  | n + 1, r => .alt (.cat r (Re.upTo n r)) .eps

/-- Greedy `{m,n}`. -/
def Re.between (m n : Nat) (r : Re) : Re :=
  .cat (Re.rep m r) (Re.upTo (n - m) r)

/-- Literal character, case-sensitive. -/
def chC (c : Char) : Re := .cls (fun x => x == c)

/-- Literal character under the `/i` flag (ASCII case folding). -/
def chI (c : Char) : Re := .cls (fun x => x.toLower == c.toLower)

/-- Literal word built character by character. -/
def litAux (ci : Bool) : List Char → Re
  | [] => .eps
  | c :: cs => .cat (if ci then chI c else chC c) (litAux ci cs)

/-- Case-insensitive literal (a `/i` regex fragment). -/
def lci (s : String) : Re := litAux true s.toList

/-- Case-sensitive literal. -/
def lcs (s : String) : Re := litAux false s.toList

/-- Concatenation of a list of fragments. -/
def reCatList : List Re → Re
  | [] => .eps
  | [r] => r
  | r :: rs => .cat r (reCatList rs)

/-- Capture environment: group index paired with the captured text;
the most recent successful write for a group is first. -/
abbrev Caps := List (Nat × List Char)

/-- Node count of a regex, used to size the matcher's fuel. -/
def reSize : Re → Nat
  | .eps => 1
  | .cls _ => 1
  | .cat a b => reSize a + reSize b + 1
  | .alt a b => reSize a + reSize b + 1
  | .star _ r => reSize r + 1
  | .group _ r => reSize r + 1
  | .tailAnchor => 1

/-- Backtracking matcher in continuation-passing style, structurally
recursive on `fuel` so that it reduces definitionally.  Fuel is spent
once per recursive entry; a `star` iteration that consumes no input
ends the loop, as in JS engines, so every star iterates at most
`length` times and `(reSize r + 1) * (length + 3)` fuel (used by
`reFindAt`) is always sufficient. -/
def matM : Nat → Re → List Char → Caps → (List Char → Caps → Option Caps) → Option Caps
  | 0, _, _, _, _ => none
  | f + 1, re, cs, caps, k =>
      match re with
      | .eps => k cs caps
      | .cls p =>
          match cs with
          | [] => none
          | c :: rest => if p c then k rest caps else none
      | .cat a b => matM f a cs caps (fun cs1 caps1 => matM f b cs1 caps1 k)
      | .alt a b =>
          match matM f a cs caps k with
          | some res => some res
          | none => matM f b cs caps k
      | .star greedy r =>
          if greedy then
            match matM f r cs caps (fun cs1 caps1 =>
                if cs1.length < cs.length then matM f (.star greedy r) cs1 caps1 k
                else k cs1 caps1) with
            | some res => some res
            | none => k cs caps
          else
            match k cs caps with
            | some res => some res
            | none =>
                matM f r cs caps (fun cs1 caps1 =>
                  if cs1.length < cs.length then matM f (.star greedy r) cs1 caps1 k
                  else k cs1 caps1)
      | .group n r =>
          matM f r cs caps (fun cs1 caps1 =>
            k cs1 ((n, cs.take (cs.length - cs1.length)) :: caps1))
      | .tailAnchor => if cs.isEmpty then k cs caps else none

/-- Attempt a match anchored at the start of `cs`. -/
def reFindAt (r : Re) (cs : List Char) : Option Caps :=
  matM ((reSize r + 1) * (cs.length + 3)) r cs [] (fun _ caps => some caps)

/-- Leftmost match: try each start position in order, as JS
`String.prototype.match` does for a non-global regex. -/
def reFindFrom (r : Re) : List Char → Option Caps
  | [] => reFindAt r []
  | c :: rest =>
      match reFindAt r (c :: rest) with
      | some caps => some caps
      | none => reFindFrom r rest

/-- First match of `r` anywhere in `cs`, with its captures. -/
def reFind (r : Re) (cs : List Char) : Option Caps := reFindFrom r cs

/-- JS `regex.test` / truthiness of `string.match`. -/
def reTest (r : Re) (cs : List Char) : Bool := (reFind r cs).isSome

/-- Read group `n` from a capture environment (`matches[n]`). -/
def getCap (caps : Caps) (n : Nat) : List Char :=
  match caps.find? (fun p => p.1 == n) with
  | some p => p.2
  | none => []

/-! ### Numbers, strings and dates -/

/-- A JS number that may be `NaN` (the result of `parseFloat` on a
malformed capture). -/
inductive JsNum : Type where
  | nan : JsNum
  | num : ℚ → JsNum
deriving DecidableEq, Repr

/-- Digit run to a natural number. -/
def digitsToNat (cs : List Char) : Nat :=
  cs.foldl (fun acc c => acc * 10 + (c.toNat - 48)) 0

/-- JS `parseFloat`, restricted to the argument shapes the parser
produces (the captures consist of digits, dots and commas, and commas
are stripped before the call): an optional integer part, an optional
dot, an optional fraction part, with any trailing junk ignored;
`NaN` when no digit is found in the leading number prefix. -/
def parseFloat (cs : List Char) : JsNum :=
  match cs.dropWhile Char.isDigit with
  | '.' :: rest2 =>
      if (cs.takeWhile Char.isDigit).isEmpty && (rest2.takeWhile Char.isDigit).isEmpty
      then .nan
      else .num (mkRat
        (Int.ofNat (digitsToNat (cs.takeWhile Char.isDigit) *
            10 ^ (rest2.takeWhile Char.isDigit).length +
          digitsToNat (rest2.takeWhile Char.isDigit)))
        (10 ^ (rest2.takeWhile Char.isDigit).length))
  | _ =>
      if (cs.takeWhile Char.isDigit).isEmpty then .nan
      else .num (mkRat (Int.ofNat (digitsToNat (cs.takeWhile Char.isDigit))) 1)

/-- `replace(/,/g, '')`. -/
def stripCommas (cs : List Char) : List Char := cs.filter (fun c => c != ',')

/-- JS `String.prototype.trim`. -/
def jsTrim (cs : List Char) : List Char :=
  ((cs.dropWhile isSpaceJS).reverse.dropWhile isSpaceJS).reverse

/-- Drop the first of two adjacent spaces, repeatedly. -/
def squeezeSpaces : List Char → List Char
  | [] => []
  | [c] => [c]
  | a :: b :: rest =>
      if a == ' ' && b == ' ' then squeezeSpaces (b :: rest)
      else a :: squeezeSpaces (b :: rest)

/-- `replace(/\s+/g, ' ')`: collapse every whitespace run to one space. -/
def collapseWS (cs : List Char) : List Char :=
  squeezeSpaces (cs.map (fun c => if isSpaceJS c then ' ' else c))

/-- The cleaning step of `parseTransactionSMS`:
`smsText.replace(/\s+/g, ' ').trim()`. -/
def cleanSMSText (cs : List Char) : List Char := jsTrim (collapseWS cs)

/-- JS `s.slice(-2)`. -/
def sliceLast2 (cs : List Char) : List Char := cs.drop (cs.length - 2)

/-- Case-sensitive substring test, JS `String.prototype.includes`. -/
def containsSub (needle : List Char) : List Char → Bool
  | [] => needle.isEmpty
  | c :: rest => needle.isPrefixOf (c :: rest) || containsSub needle rest

/-- The month-name table of `formatDateFromText`. -/
def monthMap : List (List Char × List Char) :=
  [("jan".toList, "01".toList), ("feb".toList, "02".toList),
   ("mar".toList, "03".toList), ("apr".toList, "04".toList),
   ("may".toList, "05".toList), ("jun".toList, "06".toList),
   ("jul".toList, "07".toList), ("aug".toList, "08".toList),
   ("sep".toList, "09".toList), ("oct".toList, "10".toList),
   ("nov".toList, "11".toList), ("dec".toList, "12".toList)]

/-- `formatDateFromText`: reformat a compact date such as `18Feb25`
to `18-02-25`, with `01` as the fallback month number. -/
def formatDateFromText (dateStr : List Char) : List Char :=
  let day := dateStr.take 2
  let month := ((dateStr.drop 2).take 3).map Char.toLower
  let year := dateStr.drop 5
  let monthNum :=
    match monthMap.find? (fun p => p.1 == month) with
    | some p => p.2
    | none => "01".toList
  day ++ ('-' :: monthNum) ++ ('-' :: year)

/-! ### The Transaction record and the pattern library -/

/-- `'debit' | 'credit'`. -/
inductive TxType : Type where
  | debit : TxType
  | credit : TxType
deriving DecidableEq, Repr

/-- The `Transaction` interface.  The `id` field (a fresh `uuid.v4()`,
opaque and never examined by the core) is omitted from the embedding;
`category` is attached by the ingestion service. -/
structure Transaction : Type where
  amount : JsNum
  date : List Char
  description : List Char
  type : TxType
  balance : Option JsNum := none
  bank : Option (List Char) := none
  category : Option (List Char) := none
  originalSMS : List Char := []
deriving DecidableEq, Repr

/-- A `BankPattern`: matching rule plus extraction rule. -/
structure BankPattern : Type where
  regex : Re
  extract : Caps → Transaction

/-- `\d`. -/
def dch : Re := .cls Char.isDigit

/-- `\d{2}`. -/
def dd : Re := Re.rep 2 dch

/-- `[\d,]+\.?\d*` (an amount with optional thousands separators). -/
def numRe : Re :=
  reCatList [Re.plus (.cls (fun c => c.isDigit || c == ',')),
    Re.opt (chC '.'), .star true dch]

/-- `[\d.,]+`. -/
def numDotsRe : Re := Re.plus (.cls (fun c => c.isDigit || c == '.' || c == ','))

/-- `(\d{2}-\d{2}-\d{2})` body. -/
def dateDashRe : Re := reCatList [dd, chC '-', dd, chC '-', dd]

/-- `\d{2}[A-Za-z]{3}\d{2}` (compact date such as `18Feb25`). -/
def dateCompactRe : Re := reCatList [dd, Re.rep 3 (.cls Char.isAlpha), dd]

/-- `(.*?)` lazy any-run. -/
def lazyDotStar : Re := .star false (.cls isDotChar)

/-- HDFC Bank debit pattern. -/
def hdfcDebitPattern : BankPattern :=
  { regex := reCatList [lci "HDFC Bank: INR ", .group 1 numRe,
      lci " debited from a/c XX", Re.plus dch, lci " on ", .group 2 dateDashRe,
      lci " ", .group 3 lazyDotStar, lci ". Avl bal: INR ", .group 4 numRe],
    extract := fun ms =>
      { amount := parseFloat (stripCommas (getCap ms 1)),
        date := getCap ms 2,
        description := getCap ms 3,
        balance := some (parseFloat (stripCommas (getCap ms 4))),
        type := .debit,
        bank := some ("HDFC".toList) } }

/-- HDFC Bank credit pattern. -/
def hdfcCreditPattern : BankPattern :=
  { regex := reCatList [lci "HDFC Bank: INR ", .group 1 numRe,
      lci " credited to a/c XX", Re.plus dch, lci " on ", .group 2 dateDashRe,
      lci " ", .group 3 lazyDotStar, lci ". Avl bal: INR ", .group 4 numRe],
    extract := fun ms =>
      { amount := parseFloat (stripCommas (getCap ms 1)),
        date := getCap ms 2,
        description := getCap ms 3,
        balance := some (parseFloat (stripCommas (getCap ms 4))),
        type := .credit,
        bank := some ("HDFC".toList) } }

/-- SBI debit pattern. -/
def sbiDebitPattern : BankPattern :=
  { regex := reCatList [lci "INR ", .group 1 numRe,
      lci " debited from A/c no XX", Re.plus dch, lci " on ", .group 2 dateDashRe,
      lci " ", .group 3 lazyDotStar, lci ". Bal: INR ", .group 4 numRe],
    extract := fun ms =>
      { amount := parseFloat (stripCommas (getCap ms 1)),
        date := getCap ms 2,
        description := getCap ms 3,
        balance := some (parseFloat (stripCommas (getCap ms 4))),
        type := .debit,
        bank := some ("SBI".toList) } }

/-- SBI credit pattern. -/
def sbiCreditPattern : BankPattern :=
  { regex := reCatList [lci "INR ", .group 1 numRe,
      lci " credited to A/c no XX", Re.plus dch, lci " on ", .group 2 dateDashRe,
      lci " ", .group 3 lazyDotStar, lci ". Bal: INR ", .group 4 numRe],
    extract := fun ms =>
      { amount := parseFloat (stripCommas (getCap ms 1)),
        date := getCap ms 2,
        description := getCap ms 3,
        balance := some (parseFloat (stripCommas (getCap ms 4))),
        type := .credit,
        bank := some ("SBI".toList) } }

/-- SBI UPI debit pattern. -/
def sbiUpiPattern : BankPattern :=
  { regex := reCatList [lci "Dear UPI user A/C X", .group 1 (Re.plus dch),
      lci " debited by ", .group 2 numDotsRe, lci " on date ",
      .group 3 dateCompactRe, lci " trf to ", .group 4 lazyDotStar,
      lci " Refno ", .group 5 (Re.plus dch)],
    extract := fun ms =>
      { amount := parseFloat (stripCommas (getCap ms 2)),
        date := formatDateFromText (getCap ms 3),
        description := "UPI Payment to ".toList ++ getCap ms 4,
        balance := none,
        type := .debit,
        bank := some ("SBI".toList) } }

/-- SBI YONO account transfer pattern. -/
def sbiYonoPattern : BankPattern :=
  { regex := reCatList [lci "Tranx of Rs.", .group 1 numDotsRe, lci " done on ",
      .group 2 dateCompactRe, lci " to a/c no XX", .group 3 (Re.plus dch),
      lci " of ", .group 4 lazyDotStar, lci " is complete. from SBI A/c XX",
      .group 5 (Re.plus dch)],
    extract := fun ms =>
      { amount := parseFloat (stripCommas (getCap ms 1)),
        date := formatDateFromText (getCap ms 2),
        description := "Transfer to ".toList ++ getCap ms 4 ++
          " account XX".toList ++ getCap ms 3,
        balance := none,
        type := .debit,
        bank := some ("SBI".toList) } }

/-- ICICI debit card pattern. -/
def iciciPattern : BankPattern :=
  { regex := reCatList [lci "INR ", .group 1 numRe, lci " spent on ICICI Card XX",
      Re.plus dch, lci " on ", .group 2 dateDashRe, lci " at ",
      .group 3 lazyDotStar, lci "."],
    extract := fun ms =>
      { amount := parseFloat (stripCommas (getCap ms 1)),
        date := getCap ms 2,
        description := getCap ms 3,
        balance := none,
        type := .debit,
        bank := some ("ICICI".toList) } }

/-- Axis Bank debit pattern. -/
def axisDebitPattern : BankPattern :=
  { regex := reCatList [lci "INR ", .group 1 numRe, lci " debited on ",
      .group 2 dateDashRe, lci " from A/c XX", Re.plus dch, lci " ",
      .group 3 lazyDotStar, lci ". Avl Bal INR ", .group 4 numRe],
    extract := fun ms =>
      { amount := parseFloat (stripCommas (getCap ms 1)),
        date := getCap ms 2,
        description := getCap ms 3,
        balance := some (parseFloat (stripCommas (getCap ms 4))),
        type := .debit,
        bank := some ("Axis".toList) } }

/-- Axis Bank credit pattern. -/
def axisCreditPattern : BankPattern :=
  { regex := reCatList [lci "INR ", .group 1 numRe, lci " credited on ",
      .group 2 dateDashRe, lci " to A/c XX", Re.plus dch, lci " ",
      .group 3 lazyDotStar, lci ". Avl Bal INR ", .group 4 numRe],
    extract := fun ms =>
      { amount := parseFloat (stripCommas (getCap ms 1)),
        date := getCap ms 2,
        description := getCap ms 3,
        balance := some (parseFloat (stripCommas (getCap ms 4))),
        type := .credit,
        bank := some ("Axis".toList) } }

/-- PayTM UPI pattern. -/
def paytmPattern : BankPattern :=
  { regex := reCatList [lci "INR ", .group 1 numRe, lci " paid to ",
      .group 2 lazyDotStar, lci " successfully on ", .group 3 dateDashRe],
    extract := fun ms =>
      { amount := parseFloat (stripCommas (getCap ms 1)),
        date := getCap ms 3,
        description := "Paid to ".toList ++ getCap ms 2,
        balance := none,
        type := .debit,
        bank := some ("PayTM".toList) } }

/-- Google Pay UPI pattern. -/
def gpayPattern : BankPattern :=
  { regex := reCatList [lci "INR ", .group 1 numRe, lci " sent to ",
      .group 2 lazyDotStar, lci " via UPI on ", .group 3 dateDashRe],
    extract := fun ms =>
      { amount := parseFloat (stripCommas (getCap ms 1)),
        date := getCap ms 3,
        description := "Sent to ".toList ++ getCap ms 2,
        balance := none,
        type := .debit,
        bank := some ("GooglePay".toList) } }

/-- `BANK_PATTERNS`, in the source's order: first match wins. -/
def BANK_PATTERNS : List BankPattern :=
  [hdfcDebitPattern, hdfcCreditPattern, sbiDebitPattern, sbiCreditPattern,
   sbiUpiPattern, sbiYonoPattern, iciciPattern, axisDebitPattern,
   axisCreditPattern, paytmPattern, gpayPattern]

/-! ### Generic fallback extraction and the parser entry point -/

/-- `/(INR|Rs\.?|₹)\s?([\d,]+\.?\d*)/i`: currency-marked amount. -/
def amountRegex : Re :=
  reCatList [.group 1 (.alt (lci "INR") (.alt (.cat (lci "Rs") (Re.opt (chC '.')))
    (lcs "₹"))), Re.opt (.cls isSpaceJS), .group 2 numRe]

/-- `/debited by ([\d.,]+)/i`. -/
def debitedByRegex : Re := .cat (lci "debited by ") (.group 1 numDotsRe)

/-- `/debited by/i` (the bare-phrase test on line 497 of the parser). -/
def debitedByWordRegex : Re := lci "debited by"

/-- `/on date (\d{2}[A-Za-z]{3}\d{2})/i`. -/
def dateTextRegex : Re := .cat (lci "on date ") (.group 1 dateCompactRe)

/-- `/(\d{2})[\/\-](\d{2})[\/\-](\d{2,4})/` (no `i` flag). -/
def dateSlashDashRegex : Re :=
  reCatList [.group 1 dd, .cls (fun c => c == '/' || c == '-'),
    .group 2 dd, .cls (fun c => c == '/' || c == '-'),
    .group 3 (Re.between 2 4 dch)]

/-- `/trf to (.*?)(?:Refno|$)/i`. -/
def trfToRegex : Re :=
  reCatList [lci "trf to ", .group 1 lazyDotStar,
    .alt (lci "Refno") .tailAnchor]

/-- `/debited|sent|paid|spent|withdraw|purchase/i`. -/
def isDebitRegex : Re :=
  .alt (lci "debited") (.alt (lci "sent") (.alt (lci "paid")
    (.alt (lci "spent") (.alt (lci "withdraw") (lci "purchase")))))

/-- `/credited|received|refund|cashback/i`. -/
def isCreditRegex : Re :=
  .alt (lci "credited") (.alt (lci "received") (.alt (lci "refund")
    (lci "cashback")))

/-- The `DD-MM-YY` string `${m[1]}-${m[2]}-${m[3].slice(-2)}` built by
both date branches of the generic extractor. -/
def slashDashDate (dm : Caps) : List Char :=
  getCap dm 1 ++ ('-' :: getCap dm 2) ++ ('-' :: sliceLast2 (getCap dm 3))

/-- Lines 497-519 of the generic extractor: reached either when a
currency-marked amount was found, or when it was absent and the
`debited by <number>` branch did not return.  `amountMatch` carries the
earlier `smsText.match(amountRegex)` result. -/
def extractGenericRest (now smsText : List Char) (amountMatch : Option Caps) :
    Option Transaction :=
  if amountMatch.isNone && !(reTest debitedByWordRegex smsText) then none
  else
    let amount :=
      match amountMatch with
      | some m => parseFloat (stripCommas (getCap m 2))
      | none => JsNum.num 0
    let isDebit := reTest isDebitRegex smsText
    let isCredit := reTest isCreditRegex smsText
    let date :=
      match reFind dateSlashDashRegex smsText with
      | some dm => slashDashDate dm
      | none => now
    some
      { amount := amount,
        date := date,
        description := smsText.take 50 ++ "...".toList,
        type := if isDebit then .debit else if isCredit then .credit else .debit,
        balance := none,
        bank := some ("Unknown".toList),
        originalSMS := smsText }

/-- `extractGenericTransaction`: the fallback heuristic extractor.
`now` stands for `new Date().toLocaleDateString('en-IN')`, the only
time-dependent input. -/
def extractGenericTransaction (now smsText : List Char) : Option Transaction :=
  match reFind amountRegex smsText with
  | none =>
      (match reFind debitedByRegex smsText with
       | some debitedMatch =>
           let amount := parseFloat (stripCommas (getCap debitedMatch 1))
           let date :=
             match reFind dateTextRegex smsText with
             | some dateTextMatch => formatDateFromText (getCap dateTextMatch 1)
             | none =>
                 match reFind dateSlashDashRegex smsText with
                 | some dateMatch => slashDashDate dateMatch
                 | none => now
           let description :=
             match reFind trfToRegex smsText with
             | some merchantMatch =>
                 "Payment to ".toList ++ jsTrim (getCap merchantMatch 1)
             | none => "Unknown Merchant".toList
           some
             { amount := amount,
               date := date,
               description := description,
               type := .debit,
               balance := none,
               bank := if containsSub ("SBI".toList) smsText
                       then some ("SBI".toList) else some ("Unknown".toList),
               originalSMS := smsText }
       | none => extractGenericRest now smsText none)
  | some amountMatch => extractGenericRest now smsText (some amountMatch)

/-- Try the pattern library in order; first structural match wins. -/
def tryBankPatterns : List BankPattern → List Char → Option Transaction
  | [], _ => none
  | p :: ps, cleanedText =>
      match reFind p.regex cleanedText with
      | some ms => some (p.extract ms)
      | none => tryBankPatterns ps cleanedText

/-- `parseTransactionSMS`: clean the text, try every bank pattern in
order, then fall back to generic extraction; `null` is `none`. -/
def parseTransactionSMS (now smsText : List Char) : Option Transaction :=
  if smsText.isEmpty then none
  else
    let cleanedText := cleanSMSText smsText
    match tryBankPatterns BANK_PATTERNS cleanedText with
    | some transaction => some { transaction with originalSMS := cleanedText }
    | none => extractGenericTransaction now cleanedText

/-- The keyword set of `isTransactionSMS`. -/
def transactionKeywords : List Re :=
  [lci "debited", lci "credited", lci "transaction", lci "spent",
   lci "payment", lci "account", lci "a/c", lci "bank", lci "bal",
   lci "transfer", lci "upi", lci "rupees", lci "rs.", lci "inr", lcs "₹"]

/-- `isTransactionSMS`: does the text look transactional at all? -/
def isTransactionSMS (smsText : List Char) : Bool :=
  if smsText.isEmpty then false
  else transactionKeywords.any (fun r => reTest r smsText)

/-! ### Ingestion service (`smsService.ts`) -/

/-- An inbox message as delivered by the platform (the fields the
pipeline reads). -/
structure SMSMessage : Type where
  _id : List Char
  address : List Char
  body : List Char
deriving DecidableEq, Repr

/-- Known financial-institution sender IDs. -/
def FINANCIAL_SENDERS : List (List Char) :=
  ["HDFCBK".toList, "SBIINB".toList, "ICICIB".toList, "AXISBK".toList,
   "KOTAK".toList, "YESBNK".toList, "BOIIND".toList, "PNBSMS".toList,
   "CANBNK".toList, "CENTBK".toList, "INDBNK".toList, "UNIONB".toList,
   "PAYTM".toList, "PYTM".toList, "AMAZONPAY".toList, "PHONPE".toList,
   "GPAY".toList, "UPIBNK".toList]

/-- `/[A-Z]{2}-[A-Z]{5,6}/` (sender-ID shape such as `VM-HDFCBK`). -/
def senderCodeRegex : Re :=
  reCatList [Re.rep 2 (.cls isUpperAZ), chC '-', Re.between 5 6 (.cls isUpperAZ)]

/-- `isFinancialSender`: known list, telltale substrings, or the
two-letter-dash-code shape, all on the uppercased address. -/
def isFinancialSender (address : List Char) : Bool :=
  let senderUpperCase := address.map Char.toUpper
  FINANCIAL_SENDERS.any (fun s => containsSub s senderUpperCase) ||
  containsSub ("BANK".toList) senderUpperCase ||
  containsSub ("CARD".toList) senderUpperCase ||
  containsSub ("PAY".toList) senderUpperCase ||
  containsSub ("UPI".toList) senderUpperCase ||
  containsSub ("ALERT".toList) senderUpperCase ||
  reTest senderCodeRegex senderUpperCase

/-- `extractBankFromSender`. -/
def extractBankFromSender (senderId : List Char) : Option (List Char) :=
  let upperSender := senderId.map Char.toUpper
  if containsSub ("HDFCBK".toList) upperSender ||
     containsSub ("HDFC".toList) upperSender then some ("HDFC".toList)
  else if containsSub ("SBIINB".toList) upperSender ||
     containsSub ("SBI".toList) upperSender then some ("SBI".toList)
  else if containsSub ("ICICIB".toList) upperSender ||
     containsSub ("ICICI".toList) upperSender then some ("ICICI".toList)
  else if containsSub ("AXISBK".toList) upperSender ||
     containsSub ("AXIS".toList) upperSender then some ("Axis".toList)
  else if containsSub ("KOTAK".toList) upperSender then some ("Kotak".toList)
  else if containsSub ("YESBNK".toList) upperSender ||
     containsSub ("YES".toList) upperSender then some ("Yes Bank".toList)
  else if containsSub ("PAYTM".toList) upperSender ||
     containsSub ("PYTM".toList) upperSender then some ("Paytm".toList)
  else if containsSub ("AMAZONPAY".toList) upperSender then some ("Amazon Pay".toList)
  else if containsSub ("PHONPE".toList) upperSender then some ("PhonePe".toList)
  else if containsSub ("GPAY".toList) upperSender then some ("Google Pay".toList)
  else none

/-- `MAX_CACHE_SIZE` of the recently-processed cache. -/
def MAX_CACHE_SIZE : Nat := 100

/-- JS `Set.add`: ignore a value already present, else append (sets
iterate in insertion order). -/
def setAdd (s : List (List Char)) (a : List Char) : List (List Char) :=
  if a ∈ s then s else s ++ [a]

/-- `addToProcessedCache`: when full, evict the oldest quarter
(`Array.from(set).slice(0, MAX_CACHE_SIZE / 4)`), then insert. -/
def addToProcessedCache (cache : List (List Char)) (smsId : List Char) :
    List (List Char) :=
  let cache1 := if MAX_CACHE_SIZE ≤ cache.length
                then cache.drop (MAX_CACHE_SIZE / 4) else cache
  setAdd cache1 smsId

/-- The process-local mutable state of the ingestion service: the
recently-processed id cache and the persisted transaction collection
(`saveTransaction` appends to the stored list). -/
structure ProcState : Type where
  recentlyProcessedSMS : List (List Char)
  store : List Transaction
deriving DecidableEq, Repr

/-- `processSMSMessage` as a state transition.

Modelled from the spec where the implementation is outside the parsing
core: the external confidence check (`verifyTransactionSMS`, a hosted
AI call not present in the sources) is represented by its outcome
`aiHighConfNegative`, true exactly when the check reports
`isTransaction = false` with `confidence > 0.8`; a failed call degrades
to `false` (fail open).  Likewise `category` stands for the result of
the `categorizeTransaction` collaborator and `now` for the current
date string. -/
def processSMSMessage (aiHighConfNegative : Bool) (category now : List Char)
    (st : ProcState) (sms : SMSMessage) : Option Transaction × ProcState :=
  if sms._id ∈ st.recentlyProcessedSMS then (none, st)
  else if !(isTransactionSMS sms.body) then (none, st)
  else if !(if isFinancialSender sms.address then !aiHighConfNegative else true)
  then (none, st)
  else
      match parseTransactionSMS now sms.body with
      | some parsedTransaction =>
          let transactionWithCategory : Transaction :=
            { parsedTransaction with
              category := some category,
              originalSMS := sms.body,
              bank := match parsedTransaction.bank with
                      | some b => some b
                      | none => extractBankFromSender sms.address }
          (some transactionWithCategory,
           { recentlyProcessedSMS :=
               addToProcessedCache st.recentlyProcessedSMS sms._id,
             store := st.store ++ [transactionWithCategory] })
      | none => (none, st)

/-! ### Fixture inputs -/

/-- A fixed value for the time-dependent `now` date used when a claim
needs a closed instance. -/
def date0 : List Char := "11/10/2025".toList

/-- The HDFC debit fixture from the spec's testable properties. -/
def hdfcInput : List Char :=
  "HDFC Bank: INR 1,499.00 debited from a/c XX1234 on 12-04-23 AMAZON. Avl bal: INR 24,599.35".toList

/-- The SBI UPI fixture from the spec's testable properties. -/
def upiInput : List Char :=
  "Dear UPI user A/C X4963 debited by 60.0 on date 18Feb25 trf to Jamal Store Refno 541567581752".toList

/-- The UPI fixture with its template-identifying prefix altered, so no
listed template matches. -/
def upiVariantInput : List Char :=
  "Dear XYZ user A/C X4963 debited by 60.0 on date 18Feb25 trf to Jamal Store Refno 541567581752".toList

/-- Non-transactional text containing the phrase `debited by` with no
number after it. -/
def c1input : List Char := "A/c debited by someone".toList

/-- The spec's non-transaction rejection fixture. -/
def otpInput : List Char := "Your OTP is 493021. Do not share it with anyone.".toList

/-- An HDFC-shaped message whose amount capture is made of separators
only, so its numeric parse fails. -/
def c3input : List Char :=
  "HDFC Bank: INR ,,, debited from a/c XX1234 on 12-04-23 AMAZON. Avl bal: INR 100".toList

/-- Text whose `debited by` capture is a lone dot, parsing to `NaN`. -/
def c4input : List Char := "debited by .".toList

/-- A message structurally matching both the SBI debit template
(index 2) and the Axis debit template (index 7). -/
def c5input : List Char :=
  "INR 10 debited from A/c no XX1 on 01-02-03 SHOP. Bal: INR 50 INR 20 debited on 04-05-06 from A/c XX2 STORE. Avl Bal INR 60".toList

/-- Amount plus the word `transaction` but no debit or credit keyword. -/
def c8input : List Char := "INR 500 transaction on your account".toList

/-! ### Helper lemmas -/

/-- `parseFloat` never produces a negative value: the source strips
commas and the captures contain no sign, so a successful parse is a sum
of nonnegative parts. -/
theorem parseFloat_nonneg (cs : List Char) (q : ℚ)
    (h : parseFloat cs = JsNum.num q) : 0 ≤ q := by
  unfold parseFloat at h
  split at h
  · split at h
    · exact absurd h (by simp)
    · simp only [JsNum.num.injEq] at h
      rw [← h, Rat.mkRat_eq_div]
      apply div_nonneg
      · exact_mod_cast Int.le.intro_sub _ rfl
      · positivity
  · split at h
    · exact absurd h (by simp)
    · simp only [JsNum.num.injEq] at h
      rw [← h, Rat.mkRat_eq_div]
      apply div_nonneg
      · exact_mod_cast Int.le.intro_sub _ rfl
      · positivity

/-- A digit-free string has an empty leading digit run. -/
theorem takeWhile_digit_nil (cs : List Char)
    (h : cs.all (fun c => !c.isDigit) = true) :
    cs.takeWhile Char.isDigit = [] := by
  cases cs with
  | nil => rfl
  | cons c rest =>
      simp only [List.all_cons, Bool.and_eq_true, Bool.not_eq_true'] at h
      simp [List.takeWhile_cons, h.1]

/-- `parseFloat` of a digit-free string is `NaN`. -/
theorem parseFloat_nan_of_no_digit (cs : List Char)
    (h : cs.all (fun c => !c.isDigit) = true) :
    parseFloat cs = JsNum.nan := by
  have ht := takeWhile_digit_nil cs h
  have hd : cs.dropWhile Char.isDigit = cs := by
    cases cs with
    | nil => rfl
    | cons c rest =>
        simp only [List.all_cons, Bool.and_eq_true, Bool.not_eq_true'] at h
        simp [List.dropWhile_cons, h.1]
  unfold parseFloat
  rw [hd]
  split
  · next _ t =>
      rw [List.all_cons] at h
      simp only [Bool.and_eq_true] at h
      rw [ht, takeWhile_digit_nil t h.2]
      simp
  · rw [ht]
    simp

/-- `tryBankPatterns` returns the extract of the earliest matching
pattern: if every pattern before index `i` fails and pattern `i`
matches, the result is pattern `i`'s extraction. -/
theorem tryBankPatterns_first (l : List BankPattern) (cs : List Char) :
    ∀ (i : Nat) (hi : i < l.length) (caps : Caps),
      (∀ j (hj : j < i), reFind (l.get ⟨j, Nat.lt_trans hj hi⟩).regex cs = none) →
      reFind (l.get ⟨i, hi⟩).regex cs = some caps →
      tryBankPatterns l cs = some ((l.get ⟨i, hi⟩).extract caps) := by
  induction l with
  | nil =>
      intro i hi
      exact absurd hi (by simp)
  | cons p ps ih =>
      intro i hi caps hprev hmatch
      cases i with
      | zero =>
          have hm : reFind p.regex cs = some caps := hmatch
          unfold tryBankPatterns
          rw [hm]
          rfl
      | succ n =>
          have h0 : reFind p.regex cs = none := hprev 0 (Nat.succ_pos n)
          unfold tryBankPatterns
          rw [h0]
          exact ih n (Nat.lt_of_succ_lt_succ hi) caps
            (fun j hj => hprev (j + 1) (Nat.succ_lt_succ hj)) hmatch

/-- No bank pattern matches the empty string (each template demands at
least one literal character). -/
theorem bankPatterns_all_fail_on_nil :
    BANK_PATTERNS.all (fun p => (reFind p.regex []).isNone) = true := by decide

/-- Indexed form of `bankPatterns_all_fail_on_nil`. -/
theorem bankPatterns_fail_on_nil (i : Nat) (hi : i < BANK_PATTERNS.length) :
    reFind (BANK_PATTERNS.get ⟨i, hi⟩).regex [] = none := by
  have h := bankPatterns_all_fail_on_nil
  rw [List.all_eq_true] at h
  have hm := h _ (List.get_mem BANK_PATTERNS i hi)
  simpa [Option.isNone_iff_eq_none] using hm

/-- The cleaned text of the empty message is empty. -/
theorem cleanSMSText_nil : cleanSMSText [] = [] := rfl

/-- `parseTransactionSMS` returns the transaction of the earliest
matching bank pattern, stamped with the cleaned text. -/
theorem parseTransactionSMS_first (now smsText : List Char) (i : Nat)
    (hi : i < BANK_PATTERNS.length) (caps : Caps)
    (hprev : ∀ j (hj : j < i),
      reFind (BANK_PATTERNS.get ⟨j, Nat.lt_trans hj hi⟩).regex
        (cleanSMSText smsText) = none)
    (hmatch : reFind (BANK_PATTERNS.get ⟨i, hi⟩).regex
      (cleanSMSText smsText) = some caps) :
    parseTransactionSMS now smsText =
      some { (BANK_PATTERNS.get ⟨i, hi⟩).extract caps with
             originalSMS := cleanSMSText smsText } := by
  cases hemp : smsText.isEmpty with
  | true =>
      have hnil : smsText = [] := by simpa using hemp
      rw [hnil, cleanSMSText_nil] at hmatch
      rw [bankPatterns_fail_on_nil i hi] at hmatch
      exact absurd hmatch (by simp)
  | false =>
      unfold parseTransactionSMS
      rw [hemp]
      simp only [Bool.false_eq_true, if_false]
      rw [tryBankPatterns_first BANK_PATTERNS (cleanSMSText smsText) i hi caps
        hprev hmatch]

/-! ### Claim C1 -/

/-- C1 (counterexample): the input `A/c debited by someone` matches no
bank pattern, has no currency-marked amount, and the `debited by
<number>` phrasing parses no number (the regex does not even match),
yet `parseTransactionSMS` returns a Transaction (with amount 0) rather
than the claimed null. -/
theorem C1_counterexample :
    tryBankPatterns BANK_PATTERNS (cleanSMSText c1input) = none ∧
    reFind amountRegex (cleanSMSText c1input) = none ∧
    reFind debitedByRegex (cleanSMSText c1input) = none ∧
    parseTransactionSMS date0 c1input ≠ none := by decide

/-- C1 (amended): if no bank pattern matches, no currency-marked amount
matches, and the phrase `debited by` does not occur at all (hence the
`debited by <number>` phrasing matches nothing either), then
`parseTransactionSMS` returns null.  The original claim fails because a
message containing `debited by` without a parseable number still
produces a Transaction with amount 0. -/
theorem C1_amended (now smsText : List Char)
    (hBank : tryBankPatterns BANK_PATTERNS (cleanSMSText smsText) = none)
    (hAmt : reFind amountRegex (cleanSMSText smsText) = none)
    (hDeb : reFind debitedByRegex (cleanSMSText smsText) = none)
    (hWord : reFind debitedByWordRegex (cleanSMSText smsText) = none) :
    parseTransactionSMS now smsText = none := by
  cases hemp : smsText.isEmpty with
  | true =>
      unfold parseTransactionSMS
      rw [hemp]
      simp
  | false =>
      unfold parseTransactionSMS
      rw [hemp]
      simp only [Bool.false_eq_true, if_false, hBank]
      unfold extractGenericTransaction
      rw [hAmt, hDeb]
      unfold extractGenericRest
      rw [reTest, hWord]
      simp

/-- C1 (witness): the spec's OTP fixture satisfies every hypothesis of
the amended claim and indeed yields no transaction. -/
theorem C1_witness : parseTransactionSMS date0 otpInput = none :=
  C1_amended date0 otpInput (by decide) (by decide) (by decide) (by decide)

/-! ### Claim C2 -/

/-- C2: the HDFC fixture parses to a debit of 1499 dated `12-04-23`
with description `AMAZON`, balance 24599.35 and bank `HDFC`, for every
value of the time-dependent `now` input. -/
theorem C2_hdfc_fixture (now : List Char) :
    parseTransactionSMS now hdfcInput = some
      { amount := JsNum.num 1499,
        date := "12-04-23".toList,
        description := "AMAZON".toList,
        type := TxType.debit,
        balance := some (JsNum.num (mkRat 2459935 100)),
        bank := some ("HDFC".toList),
        category := none,
        originalSMS := hdfcInput } := by
  rfl

/-! ### Claim C3 -/

/-- The captures produced by the HDFC debit template on `c3input`. -/
def c3caps : Caps :=
  (reFind hdfcDebitPattern.regex (cleanSMSText c3input)).getD []

/-- C3 (counterexample): on `c3input` the HDFC debit template matches
structurally, its amount capture (`,,,`) strips to a digit-free string
whose numeric parse fails, yet `parseTransactionSMS` returns that
template's Transaction with amount `NaN` instead of treating the
template as a non-match and falling through. -/
theorem C3_counterexample :
    (reFind hdfcDebitPattern.regex (cleanSMSText c3input)).isSome = true ∧
    parseFloat (stripCommas (getCap c3caps 1)) = JsNum.nan ∧
    Option.map Transaction.amount (parseTransactionSMS date0 c3input) =
      some JsNum.nan := by decide

/-- C3 (amended): a structurally matching template whose numeric
capture parses to no number is still used, never raises, and yields a
Transaction carrying amount `NaN`; the pipeline does not fall through
to later templates or the generic extractor.  Stated for the HDFC
debit template, the first in the library. -/
theorem C3_amended (now smsText : List Char) (caps : Caps)
    (hmatch : reFind hdfcDebitPattern.regex (cleanSMSText smsText) = some caps)
    (hnd : (stripCommas (getCap caps 1)).all (fun c => !c.isDigit) = true) :
    parseTransactionSMS now smsText =
      some { hdfcDebitPattern.extract caps with
             originalSMS := cleanSMSText smsText } ∧
    (hdfcDebitPattern.extract caps).amount = JsNum.nan := by
  constructor
  · exact parseTransactionSMS_first now smsText 0 (by decide) caps
      (fun j hj => absurd hj (Nat.not_lt_zero j)) hmatch
  · show parseFloat (stripCommas (getCap caps 1)) = JsNum.nan
    exact parseFloat_nan_of_no_digit _ hnd

/-- C3 (witness): the amended claim applied to the concrete `c3input`. -/
theorem C3_witness :
    parseTransactionSMS date0 c3input =
      some { hdfcDebitPattern.extract c3caps with
             originalSMS := cleanSMSText c3input } ∧
    (hdfcDebitPattern.extract c3caps).amount = JsNum.nan :=
  C3_amended date0 c3input c3caps (by decide) (by decide)

/-! ### Claim C4 -/

/-- Every bank-pattern extraction whose amount is a number (not `NaN`)
yields a nonnegative amount, since each template's amount is a
`parseFloat` of a sign-free capture. -/
theorem bankPatterns_extract_nonneg (p : BankPattern) (hp : p ∈ BANK_PATTERNS)
    (ms : Caps) (q : ℚ) (ha : (p.extract ms).amount = JsNum.num q) : 0 ≤ q := by
  simp only [BANK_PATTERNS, List.mem_cons, List.mem_singleton] at hp
  rcases hp with rfl | rfl | rfl | rfl | rfl | rfl | rfl | rfl | rfl | rfl | rfl | h
  all_goals try exact parseFloat_nonneg _ q ha
  exact absurd h (List.not_mem_nil p)

/-- A successful `tryBankPatterns` run inherits nonnegativity from the
matched pattern's extraction. -/
theorem tryBankPatterns_amount_nonneg (l : List BankPattern) (cs : List Char)
    (hl : ∀ p ∈ l, ∀ (ms : Caps) (q : ℚ),
      (p.extract ms).amount = JsNum.num q → 0 ≤ q)
    (t : Transaction) (q : ℚ) (h : tryBankPatterns l cs = some t)
    (ha : t.amount = JsNum.num q) : 0 ≤ q := by
  induction l with
  | nil => exact absurd h (by simp [tryBankPatterns])
  | cons p ps ih =>
      unfold tryBankPatterns at h
      cases hf : reFind p.regex cs with
      | some ms =>
          rw [hf] at h
          injection h with h
          exact hl p (by simp) ms q (h ▸ ha)
      | none =>
          rw [hf] at h
          exact ih (fun p hp => hl p (List.mem_cons_of_mem _ hp)) h

/-- Amount nonnegativity for the generic extractor's tail. -/
theorem extractGenericRest_amount_nonneg (now cs : List Char)
    (am : Option Caps) (t : Transaction) (q : ℚ)
    (h : extractGenericRest now cs am = some t)
    (ha : t.amount = JsNum.num q) : 0 ≤ q := by
  unfold extractGenericRest at h
  split at h
  · exact absurd h (by simp)
  · injection h with h
    rw [← h] at ha
    simp only at ha
    cases am with
    | some m =>
        simp only at ha
        exact parseFloat_nonneg _ q ha
    | none =>
        simp only [JsNum.num.injEq] at ha
        rw [← ha]

/-- Amount nonnegativity for the generic extractor. -/
theorem extractGeneric_amount_nonneg (now cs : List Char) (t : Transaction)
    (q : ℚ) (h : extractGenericTransaction now cs = some t)
    (ha : t.amount = JsNum.num q) : 0 ≤ q := by
  unfold extractGenericTransaction at h
  cases ham : reFind amountRegex cs with
  | none =>
      rw [ham] at h
      cases hdm : reFind debitedByRegex cs with
      | some dm =>
          rw [hdm] at h
          injection h with h
          rw [← h] at ha
          simp only at ha
          exact parseFloat_nonneg _ q ha
      | none =>
          rw [hdm] at h
          exact extractGenericRest_amount_nonneg now cs none t q h ha
  | some am =>
      rw [ham] at h
      exact extractGenericRest_amount_nonneg now cs (some am) t q h ha

/-- C4 (counterexample): on the input `debited by .` the parser returns
a Transaction whose amount is `NaN`, not a non-negative number. -/
theorem C4_counterexample :
    (parseTransactionSMS date0 c4input).isSome = true ∧
    Option.map Transaction.amount (parseTransactionSMS date0 c4input) =
      some JsNum.nan := by decide

/-- C4 (amended): the amount field of every returned Transaction is
present and is never a negative number — whenever it is a numeric
value at all it is nonnegative — but it can be `NaN` when a capture
strips to a digit-free string, which refutes the original "always a
non-negative number" form. -/
theorem C4_amended (now smsText : List Char) (t : Transaction) (q : ℚ)
    (hp : parseTransactionSMS now smsText = some t)
    (ha : t.amount = JsNum.num q) : 0 ≤ q := by
  unfold parseTransactionSMS at hp
  split at hp
  · exact absurd hp (by simp)
  · cases hb : tryBankPatterns BANK_PATTERNS (cleanSMSText smsText) with
    | some tb =>
        simp only [hb] at hp
        injection hp with hp
        rw [← hp] at ha
        simp only at ha
        exact tryBankPatterns_amount_nonneg BANK_PATTERNS (cleanSMSText smsText)
          (fun p hp => bankPatterns_extract_nonneg p hp) tb q hb ha
    | none =>
        simp only [hb] at hp
        exact extractGeneric_amount_nonneg now (cleanSMSText smsText) t q hp ha

/-- C4 (witness): the amended claim applied to the HDFC fixture, whose
parsed amount is the numeric value 1499. -/
theorem C4_witness : (0 : ℚ) ≤ 1499 :=
  C4_amended date0 hdfcInput
    ((parseTransactionSMS date0 hdfcInput).getD
      { amount := JsNum.nan, date := [], description := [], type := .debit })
    1499 (by decide) (by decide)

/-! ### Claim C5 -/

/-- C5: pattern priority.  If every bank pattern listed before index
`i` fails on the cleaned text and pattern `i` matches, then
`parseTransactionSMS` returns pattern `i`'s extraction — the earliest
matching template wins and later matching templates are never used. -/
theorem C5_first_pattern_wins (now smsText : List Char) (i : Nat)
    (hi : i < BANK_PATTERNS.length) (caps : Caps)
    (hprev : ∀ j (hj : j < i),
      reFind (BANK_PATTERNS.get ⟨j, Nat.lt_trans hj hi⟩).regex
        (cleanSMSText smsText) = none)
    (hmatch : reFind (BANK_PATTERNS.get ⟨i, hi⟩).regex
      (cleanSMSText smsText) = some caps) :
    parseTransactionSMS now smsText =
      some { (BANK_PATTERNS.get ⟨i, hi⟩).extract caps with
             originalSMS := cleanSMSText smsText } :=
  parseTransactionSMS_first now smsText i hi caps hprev hmatch

/-- The captures of the SBI debit template (index 2) on the ambiguous
fixture that also matches the Axis debit template (index 7). -/
def c5caps : Caps :=
  (reFind sbiDebitPattern.regex (cleanSMSText c5input)).getD []

/-- C5 (witness): `c5input` structurally matches both the SBI debit
template (index 2) and the Axis debit template (index 7); the parser
returns the SBI extraction, the earlier of the two. -/
theorem C5_witness :
    (reFind sbiDebitPattern.regex (cleanSMSText c5input)).isSome = true ∧
    (reFind axisDebitPattern.regex (cleanSMSText c5input)).isSome = true ∧
    parseTransactionSMS date0 c5input =
      some { (BANK_PATTERNS.get ⟨2, by decide⟩).extract c5caps with
             originalSMS := cleanSMSText c5input } := by
  have h0 : reFind (BANK_PATTERNS.get ⟨0, by decide⟩).regex
      (cleanSMSText c5input) = none := by decide
  have h1 : reFind (BANK_PATTERNS.get ⟨1, by decide⟩).regex
      (cleanSMSText c5input) = none := by decide
  refine ⟨by decide, by decide, ?_⟩
  refine C5_first_pattern_wins date0 c5input 2 (by decide) c5caps ?_ (by decide)
  intro j hj
  match j, hj with
  | 0, _ => exact h0
  | 1, _ => exact h1

/-! ### Claim C6 -/

/-- C6: the SBI UPI fixture is handled by the named UPI template
(amount 60, compact date `18Feb25` reformatted to `18-02-25`, type
debit), and the variant with the template-identifying prefix altered
falls through to the generic extractor, still yielding amount 60 and
type debit with a description containing `Jamal Store`.  Both results
are independent of the time-dependent `now` input, since the date is
extracted from the text. -/
theorem C6_upi_and_generic_fallback (now : List Char) :
    parseTransactionSMS now upiInput = some
      { amount := JsNum.num 60,
        date := "18-02-25".toList,
        description := "UPI Payment to Jamal Store".toList,
        type := TxType.debit,
        balance := none,
        bank := some ("SBI".toList),
        category := none,
        originalSMS := upiInput } ∧
    parseTransactionSMS now upiVariantInput = some
      { amount := JsNum.num 60,
        date := "18-02-25".toList,
        description := "Payment to Jamal Store".toList,
        type := TxType.debit,
        balance := none,
        bank := some ("Unknown".toList),
        category := none,
        originalSMS := upiVariantInput } ∧
    containsSub ("Jamal Store".toList) ("Payment to Jamal Store".toList) = true :=
  ⟨rfl, rfl, by decide⟩

/-! ### Claim C7 -/

/-- A value just inserted by `setAdd` is in the set. -/
theorem mem_setAdd (s : List (List Char)) (a : List Char) : a ∈ setAdd s a := by
  unfold setAdd
  split
  · next hmem => exact hmem
  · simp

/-- An id just inserted by `addToProcessedCache` is in the cache. -/
theorem mem_addToProcessedCache (cache : List (List Char)) (a : List Char) :
    a ∈ addToProcessedCache cache a := by
  unfold addToProcessedCache
  exact mem_setAdd _ a

/-- C7: deduplication by message id.  If a call to `processSMSMessage`
succeeds (returns a Transaction), then exactly one record was appended
to the persisted collection, the message id is now in the
recently-processed cache, and any subsequent call carrying the same id
— with arbitrary AI-check outcome, category and date — returns null
and leaves the state, in particular the persisted collection,
unchanged. -/
theorem C7_dedup_once (ai ai2 : Bool) (cat cat2 now now2 : List Char)
    (st : ProcState) (sms sms2 : SMSMessage) (t : Transaction)
    (st2 : ProcState)
    (h : processSMSMessage ai cat now st sms = (some t, st2))
    (hid : sms2._id = sms._id) :
    st2.store = st.store ++ [t] ∧
    sms._id ∈ st2.recentlyProcessedSMS ∧
    processSMSMessage ai2 cat2 now2 st2 sms2 = (none, st2) := by
  unfold processSMSMessage at h
  by_cases h1 : sms._id ∈ st.recentlyProcessedSMS
  · rw [if_pos h1] at h
    exact absurd h (by simp)
  · rw [if_neg h1] at h
    by_cases h2 : (!(isTransactionSMS sms.body)) = true
    · rw [if_pos h2] at h
      exact absurd h (by simp)
    · rw [if_neg h2] at h
      by_cases h3 :
          (!(if isFinancialSender sms.address then !ai else true)) = true
      · rw [if_pos h3] at h
        exact absurd h (by simp)
      · rw [if_neg h3] at h
        cases hp : parseTransactionSMS now sms.body with
        | none =>
            rw [hp] at h
            exact absurd h (by simp)
        | some parsed =>
            rw [hp] at h
            simp only [Prod.mk.injEq, Option.some.injEq] at h
            obtain ⟨ht, hst⟩ := h
            subst ht
            subst hst
            refine ⟨rfl, mem_addToProcessedCache _ _, ?_⟩
            simp only [processSMSMessage, hid]
            rw [if_pos (mem_addToProcessedCache st.recentlyProcessedSMS sms._id)]

/-- The inbox message of the C7 witness: an HDFC debit notification
from a bank-shaped sender. -/
def c7sms : SMSMessage :=
  { _id := "m1".toList, address := "VM-HDFCBK".toList, body := hdfcInput }

/-- Empty initial service state. -/
def c7state0 : ProcState := { recentlyProcessedSMS := [], store := [] }

/-- First processing run of the C7 witness. -/
def c7pair : Option Transaction × ProcState :=
  processSMSMessage false ("Shopping".toList) date0 c7state0 c7sms

/-- The transaction persisted by the first run of the C7 witness. -/
def c7tx : Transaction :=
  c7pair.1.getD
    { amount := JsNum.nan, date := [], description := [], type := .debit }

/-- C7 (witness): processing the same inbox message twice persists
exactly one Transaction; the second call returns null and changes
nothing, even with a different AI outcome and category. -/
theorem C7_witness :
    c7pair.2.store = c7state0.store ++ [c7tx] ∧
    c7sms._id ∈ c7pair.2.recentlyProcessedSMS ∧
    processSMSMessage true ("Other".toList) date0 c7pair.2 c7sms =
      (none, c7pair.2) :=
  C7_dedup_once false true ("Shopping".toList) ("Other".toList) date0 date0
    c7state0 c7sms c7sms c7tx c7pair.2 rfl rfl

/-! ### Claim C8 -/

/-- C8: when the generic extractor sees a currency-marked amount and
the word `transaction` but no debit keyword and no credit keyword, the
extracted Transaction's type defaults to debit. -/
theorem C8_default_debit (now smsText : List Char) (m : Caps)
    (ham : reFind amountRegex smsText = some m)
    (_hword : reTest (lci "transaction") smsText = true)
    (hdeb : reTest isDebitRegex smsText = false)
    (hcred : reTest isCreditRegex smsText = false) :
    Option.map Transaction.type (extractGenericTransaction now smsText) =
      some TxType.debit := by
  unfold extractGenericTransaction
  rw [ham]
  unfold extractGenericRest
  simp [hdeb, hcred]

/-- The amount captures on the C8 fixture. -/
def c8caps : Caps := (reFind amountRegex c8input).getD []

/-- C8 (witness): `INR 500 transaction on your account` defaults to a
debit. -/
theorem C8_witness :
    Option.map Transaction.type (extractGenericTransaction date0 c8input) =
      some TxType.debit :=
  C8_default_debit date0 c8input c8caps (by decide) (by decide) (by decide)
    (by decide)

/-! ### Claim C9 -/

/-- Determinism of the generic extractor's tail: the outcome shape and
all fields except the date are independent of `now`; the date differs
only by being the respective `now` when no date is found in the text. -/
theorem extractGenericRest_det (cs n1 n2 : List Char) (am : Option Caps) :
    match extractGenericRest n1 cs am, extractGenericRest n2 cs am with
    | none, none => True
    | some t1, some t2 =>
        t1.amount = t2.amount ∧ t1.description = t2.description ∧
        t1.type = t2.type ∧ t1.balance = t2.balance ∧ t1.bank = t2.bank ∧
        t1.originalSMS = t2.originalSMS ∧
        (t1.date = t2.date ∨ (t1.date = n1 ∧ t2.date = n2))
    | _, _ => False := by
  unfold extractGenericRest
  by_cases hc : (am.isNone && !(reTest debitedByWordRegex cs)) = true
  · simp [hc]
  · cases hdm : reFind dateSlashDashRegex cs with
    | some dm => simp [hc, hdm]
    | none => simp [hc, hdm]

/-- Determinism of the generic extractor, in the same sense. -/
theorem extractGeneric_det (cs n1 n2 : List Char) :
    match extractGenericTransaction n1 cs, extractGenericTransaction n2 cs with
    | none, none => True
    | some t1, some t2 =>
        t1.amount = t2.amount ∧ t1.description = t2.description ∧
        t1.type = t2.type ∧ t1.balance = t2.balance ∧ t1.bank = t2.bank ∧
        t1.originalSMS = t2.originalSMS ∧
        (t1.date = t2.date ∨ (t1.date = n1 ∧ t2.date = n2))
    | _, _ => False := by
  unfold extractGenericTransaction
  cases ham : reFind amountRegex cs with
  | some am =>
      simp only [ham]
      exact extractGenericRest_det cs n1 n2 (some am)
  | none =>
      simp only [ham]
      cases hdm : reFind debitedByRegex cs with
      | none =>
          simp only [hdm]
          exact extractGenericRest_det cs n1 n2 none
      | some dm =>
          simp only [hdm]
          cases hdt : reFind dateTextRegex cs with
          | some dtm => simp [hdt]
          | none =>
              cases hds : reFind dateSlashDashRegex cs with
              | some dsm => simp [hdt, hds]
              | none => simp [hdt, hds]

/-- C9: `parseTransactionSMS` is a pure function of the input text and
the injected `now` date (the fresh `id` is outside the embedding): two
runs on the same string have the same match/no-match outcome and
field-for-field identical output, except that the date may be the
respective "now" value when the text carries no date. -/
theorem C9_pure_deterministic (smsText n1 n2 : List Char) :
    match parseTransactionSMS n1 smsText, parseTransactionSMS n2 smsText with
    | none, none => True
    | some t1, some t2 =>
        t1.amount = t2.amount ∧ t1.description = t2.description ∧
        t1.type = t2.type ∧ t1.balance = t2.balance ∧ t1.bank = t2.bank ∧
        t1.originalSMS = t2.originalSMS ∧
        (t1.date = t2.date ∨ (t1.date = n1 ∧ t2.date = n2))
    | _, _ => False := by
  unfold parseTransactionSMS
  cases hemp : smsText.isEmpty with
  | true => simp
  | false =>
      simp only [Bool.false_eq_true, if_false]
      cases hb : tryBankPatterns BANK_PATTERNS (cleanSMSText smsText) with
      | some tb => simp [hb]
      | none =>
          simp only [hb]
          exact extractGeneric_det (cleanSMSText smsText) n1 n2

/-! ### Claim C10 -/

/-- C10: a message whose body fails the `isTransactionSMS` keyword test
is never extracted or persisted: `processSMSMessage` returns null and
leaves the state (cache and store) unchanged, regardless of the sender
address — in particular even when `isFinancialSender` accepts it. -/
theorem C10_keyword_gate (ai : Bool) (cat now : List Char) (st : ProcState)
    (sms : SMSMessage) (h : isTransactionSMS sms.body = false) :
    processSMSMessage ai cat now st sms = (none, st) := by
  unfold processSMSMessage
  split
  · rfl
  · simp [h]

/-- A chatty message from a financial-looking sender. -/
def c10sms : SMSMessage :=
  { _id := "m2".toList, address := "HDFCBK".toList,
    body := "Hello friend, see you tomorrow".toList }

/-- C10 (witness): the keyword gate rejects `c10sms` even though its
sender passes the financial-institution heuristic. -/
theorem C10_witness :
    isFinancialSender c10sms.address = true ∧
    processSMSMessage false ("Shopping".toList) date0 c7state0 c10sms =
      (none, c7state0) :=
  ⟨by decide, C10_keyword_gate false ("Shopping".toList) date0 c7state0 c10sms
    (by decide)⟩

end RupeeRadar
